import Mathlib

/-!
Shallow embedding of `menousdb.go`, the Go client library for the MenousDB
HTTP database service, together with proofs of the specification claims.

Go strings are modelled as Lean `String`, JSON values as the inductive
`Json`, Go `error` values as the inductive `GoError`, and the HTTP
environment (marshalling failures, request-construction failures, the
network, and the response stream) as an oracle `Transport` whose fields
supply the outcome of each effectful step.  Every exposed method of the
client is translated to a function from the client value and the oracle to
an `OpResult` recording the receiver state after the call, the list of HTTP
requests performed, and the Go return value (`Except GoError GoValue`).
-/

/-- JSON values, as produced by `encoding/json`.  Go's `json.Marshal`
sorts the keys of a `map[string]interface{}`, so object fields are listed
in the marshalled (sorted) order. -/
inductive Json where
  | null
  | bool (b : Bool)
  | num (n : Int)
  | str (s : String)
  | arr (elems : List Json)
  | obj (fields : List (String × Json))

/-- The MenousDB client struct (`menousdb.go` lines 13-17). -/
structure MenousDB where
  URL : String
  Key : String
  Database : String
  deriving DecidableEq

/-- Go `strings.HasSuffix s suffix`: whether `suffix` is a suffix of `s`. -/
def hasSuffix (s sfx : String) : Bool :=
  sfx.data.isSuffixOf s.data

/-- `NewMenousDB` (lines 20-31): appends `"/"` to the URL unless it already
ends with one, then builds the client record. -/
def NewMenousDB (url key database : String) : MenousDB :=
  let url := if hasSuffix url "/" then url else url ++ "/"
  { URL := url, Key := key, Database := database }

/-- The Go error values the client can return.  `GoError.message` gives the
text of each error. -/
inductive GoError where
  | noDatabaseSpecified
  | marshalError
  | newRequestError
  | sendError
  | readError
  | decodeError
  deriving DecidableEq

/-- The message carried by each error; only `noDatabaseSpecified` is
constructed by the client itself (`fmt.Errorf` at line 36), the others come
from the standard library. -/
def GoError.message : GoError → String
  | .noDatabaseSpecified => "no database specified"
  | .marshalError => "json marshal error"
  | .newRequestError => "http new request error"
  | .sendError => "http send error"
  | .readError => "body read error"
  | .decodeError => "json decode error"

/-- `validateDatabase` (lines 34-39): errors when the `Database` field is
empty. -/
def validateDatabase (m : MenousDB) : Except GoError Unit :=
  if m.Database = "" then .error .noDatabaseSpecified else .ok ()

/-- One HTTP request as assembled by `makeRequest`. -/
structure HttpRequest where
  method : String
  url : String
  headers : List (String × String)
  body : Option Json

/-- `req.Header.Set k v`: replaces any entry for key `k` and appends
`(k, v)`. -/
def setHeader (hs : List (String × String)) (k v : String) :
    List (String × String) :=
  hs.filter (fun p => p.1 != k) ++ [(k, v)]

/-- The header assembly of `makeRequest` (lines 62-66): `Content-Type` is
set to `application/json` first, then each entry of the supplied header
map is set. -/
def buildHeaders (hs : List (String × String)) : List (String × String) :=
  hs.foldl (fun acc kv => setHeader acc kv.1 kv.2)
    (setHeader [] "Content-Type" "application/json")

/-- Header lookup (keys produced by `setHeader` are unique). -/
def getHeader (hs : List (String × String)) (k : String) : Option String :=
  (hs.find? (fun p => p.1 == k)).map Prod.snd

/-- The oracle for one call: outcomes of marshalling, request construction,
sending, and of reading/decoding the response stream.  `decodeResult` is
the outcome of `json.NewDecoder(resp.Body).Decode` (`none` = decode
failure); `bodyBytes`/`readAllFails` describe `io.ReadAll` on the fresh
body; `fallbackBytes`/`fallbackReadFails` describe `io.ReadAll` on the
stream after a failed decode. -/
structure Transport where
  marshalFails : Bool
  newRequestFails : Bool
  sendFails : Bool
  decodeResult : Option Json
  readAllFails : Bool
  bodyBytes : String
  fallbackReadFails : Bool
  fallbackBytes : String

/-- Result of `makeRequest`: the Go return value, and the list of HTTP
requests actually performed by `client.Do` (empty when an earlier step
failed). -/
structure MakeReqResult where
  result : Except GoError Unit
  sent : List HttpRequest

/-- `makeRequest` (lines 42-71): marshal the body when present, build the
request at `m.URL + endpoint`, set the headers, and execute it. -/
def makeRequest (m : MenousDB) (method endpoint : String)
    (headers : List (String × String)) (body : Option Json)
    (t : Transport) : MakeReqResult :=
  if body.isSome && t.marshalFails then ⟨.error .marshalError, []⟩
  else if t.newRequestFails then ⟨.error .newRequestError, []⟩
  else
    let req : HttpRequest :=
      { method := method, url := m.URL ++ endpoint,
        headers := buildHeaders headers, body := body }
    if t.sendFails then ⟨.error .sendError, [req]⟩
    else ⟨.ok (), [req]⟩

/-- Go return values of the exposed methods: a decoded
`map[string]interface{}` (`ReadDB`), a raw string, or a decoded
`interface{}`. -/
inductive GoValue where
  | map (fields : List (String × Json))
  | str (s : String)
  | json (j : Json)

/-- How a method consumes the response body: `decodeMap` decodes into
`map[string]interface{}` and errors on failure (`ReadDB`); `rawString`
reads the body with `io.ReadAll`; `decodeOrText` decodes into
`interface{}` and on failure reads the remaining body and returns it as a
string with a nil error. -/
inductive RespMode where
  | decodeMap
  | rawString
  | decodeOrText
  deriving DecidableEq

/-- Response handling per mode, reading outcomes from the oracle. -/
def handleResponse (mode : RespMode) (t : Transport) :
    Except GoError GoValue :=
  match mode with
  | .decodeMap =>
    match t.decodeResult with
    | some (Json.obj fields) => .ok (GoValue.map fields)
    | _ => .error .decodeError
  | .rawString =>
    if t.readAllFails then .error .readError
    else .ok (GoValue.str t.bodyBytes)
  | .decodeOrText =>
    match t.decodeResult with
    | some j => .ok (GoValue.json j)
    | none =>
      if t.fallbackReadFails then .error .readError
      else .ok (GoValue.str t.fallbackBytes)

/-- Result of one exposed method call: the receiver state after the call
(no method body assigns to the receiver, so it is the input client), the
requests performed, and the Go return value. -/
structure OpResult where
  receiver : MenousDB
  sent : List HttpRequest
  result : Except GoError GoValue

/-- The request/response half of the method template: call `makeRequest`,
propagate its error, otherwise handle the response. -/
def sendAndHandle (m : MenousDB) (method endpoint : String)
    (headers : List (String × String)) (body : Option Json)
    (mode : RespMode) (t : Transport) : OpResult :=
  { receiver := m,
    sent := (makeRequest m method endpoint headers body t).sent,
    result :=
      match (makeRequest m method endpoint headers body t).result with
      | .error e => .error e
      | .ok _ => handleResponse mode t }

/-- The common method template: every method except `GetDatabases` first
calls `validateDatabase` and returns its error without any request;
then the request is made and the response handled per mode. -/
def runOp (m : MenousDB) (validate : Bool) (method endpoint : String)
    (headers : List (String × String)) (body : Option Json)
    (mode : RespMode) (t : Transport) : OpResult :=
  if validate then
    match validateDatabase m with
    | .error e => ⟨m, [], .error e⟩
    | .ok _ => sendAndHandle m method endpoint headers body mode t
  else sendAndHandle m method endpoint headers body mode t

/-- `ReadDB` (lines 74-96): GET `read-db`, headers `key`/`database`, no
body, decodes into a map and returns the decode error on failure. -/
def ReadDB (m : MenousDB) (t : Transport) : OpResult :=
  runOp m true "GET" "read-db" [("key", m.Key), ("database", m.Database)]
    none RespMode.decodeMap t

/-- `CreateDB` (lines 99-121): POST `create-db`, headers `key`/`database`,
no body, returns the response body as a string. -/
def CreateDB (m : MenousDB) (t : Transport) : OpResult :=
  runOp m true "POST" "create-db" [("key", m.Key), ("database", m.Database)]
    none RespMode.rawString t

/-- `DeleteDB` (lines 124-146): DELETE `del-database`, headers
`key`/`database`, no body, returns the response body as a string. -/
def DeleteDB (m : MenousDB) (t : Transport) : OpResult :=
  runOp m true "DELETE" "del-database"
    [("key", m.Key), ("database", m.Database)] none RespMode.rawString t

/-- `CheckDBExists` (lines 149-171): GET `check-db-exists`, headers
`key`/`database`, no body, returns the response body as a string. -/
def CheckDBExists (m : MenousDB) (t : Transport) : OpResult :=
  runOp m true "GET" "check-db-exists"
    [("key", m.Key), ("database", m.Database)] none RespMode.rawString t

/-- `CreateTable` (lines 174-201): POST `create-table`, headers
`key`/`database`/`table`, body `{"attributes": attributes}`, returns the
response body as a string. -/
def CreateTable (m : MenousDB) (table : String) (attributes : List String)
    (t : Transport) : OpResult :=
  runOp m true "POST" "create-table"
    [("key", m.Key), ("database", m.Database), ("table", table)]
    (some (Json.obj [("attributes", Json.arr (attributes.map Json.str))]))
    RespMode.rawString t

/-- `CheckTableExists` (lines 204-227): GET `check-table-exists`, headers
`key`/`database`/`table`, no body, returns the response body as a
string. -/
def CheckTableExists (m : MenousDB) (table : String) (t : Transport) :
    OpResult :=
  runOp m true "GET" "check-table-exists"
    [("key", m.Key), ("database", m.Database), ("table", table)]
    none RespMode.rawString t

/-- `InsertIntoTable` (lines 230-257): POST `insert-into-table`, headers
`key`/`database`/`table`, body `{"values": values}`, returns the response
body as a string. -/
def InsertIntoTable (m : MenousDB) (table : String) (values : Json)
    (t : Transport) : OpResult :=
  runOp m true "POST" "insert-into-table"
    [("key", m.Key), ("database", m.Database), ("table", table)]
    (some (Json.obj [("values", values)])) RespMode.rawString t

/-- `GetTable` (lines 260-288): GET `get-table`, headers
`key`/`database`/`table`, no body, decodes into `interface{}` and falls
back to raw text on decode failure. -/
def GetTable (m : MenousDB) (table : String) (t : Transport) : OpResult :=
  runOp m true "GET" "get-table"
    [("key", m.Key), ("database", m.Database), ("table", table)]
    none RespMode.decodeOrText t

/-- `SelectWhere` (lines 291-323): GET `select-where`, headers
`key`/`database`/`table`, body `{"conditions": conditions}`, decode with
raw-text fallback. -/
def SelectWhere (m : MenousDB) (table : String)
    (conditions : List (String × Json)) (t : Transport) : OpResult :=
  runOp m true "GET" "select-where"
    [("key", m.Key), ("database", m.Database), ("table", table)]
    (some (Json.obj [("conditions", Json.obj conditions)]))
    RespMode.decodeOrText t

/-- `SelectColumns` (lines 326-358): GET `select-columns`, headers
`key`/`database`/`table`, body `{"columns": columns}`, decode with
raw-text fallback. -/
def SelectColumns (m : MenousDB) (table : String) (columns : List String)
    (t : Transport) : OpResult :=
  runOp m true "GET" "select-columns"
    [("key", m.Key), ("database", m.Database), ("table", table)]
    (some (Json.obj [("columns", Json.arr (columns.map Json.str))]))
    RespMode.decodeOrText t

/-- `SelectColumnsWhere` (lines 361-394): GET `select-columns-where`,
headers `key`/`database`/`table`, body
`{"columns": columns, "conditions": conditions}` (keys in marshalled
order), decode with raw-text fallback. -/
def SelectColumnsWhere (m : MenousDB) (table : String)
    (columns : List String) (conditions : List (String × Json))
    (t : Transport) : OpResult :=
  runOp m true "GET" "select-columns-where"
    [("key", m.Key), ("database", m.Database), ("table", table)]
    (some (Json.obj [("columns", Json.arr (columns.map Json.str)),
      ("conditions", Json.obj conditions)]))
    RespMode.decodeOrText t

/-- `DeleteWhere` (lines 397-429): DELETE `delete-where`, headers
`key`/`database`/`table`, body `{"conditions": conditions}`, decode with
raw-text fallback. -/
def DeleteWhere (m : MenousDB) (table : String)
    (conditions : List (String × Json)) (t : Transport) : OpResult :=
  runOp m true "DELETE" "delete-where"
    [("key", m.Key), ("database", m.Database), ("table", table)]
    (some (Json.obj [("conditions", Json.obj conditions)]))
    RespMode.decodeOrText t

/-- `DeleteTable` (lines 432-460): DELETE `delete-table`, headers
`key`/`database`/`table`, no body, decode with raw-text fallback. -/
def DeleteTable (m : MenousDB) (table : String) (t : Transport) :
    OpResult :=
  runOp m true "DELETE" "delete-table"
    [("key", m.Key), ("database", m.Database), ("table", table)]
    none RespMode.decodeOrText t

/-- `UpdateWhere` (lines 463-496): POST `update-table`, headers
`key`/`database`/`table`, body
`{"conditions": conditions, "values": values}` (keys in marshalled
order), decode with raw-text fallback. -/
def UpdateWhere (m : MenousDB) (table : String)
    (conditions values : List (String × Json)) (t : Transport) : OpResult :=
  runOp m true "POST" "update-table"
    [("key", m.Key), ("database", m.Database), ("table", table)]
    (some (Json.obj [("conditions", Json.obj conditions),
      ("values", Json.obj values)]))
    RespMode.decodeOrText t

/-- `GetDatabases` (lines 499-521): GET `get-databases`, header `key`
only, no body, decode with raw-text fallback; it performs NO database
validation. -/
def GetDatabases (m : MenousDB) (t : Transport) : OpResult :=
  runOp m false "GET" "get-databases" [("key", m.Key)]
    none RespMode.decodeOrText t

/-- The `String()` method (lines 524-526): returns the `Database` field;
the pair records the receiver state after the call. -/
def stringMethod (m : MenousDB) : MenousDB × String :=
  (m, m.Database)


section Lemmas

variable (m : MenousDB) (validate : Bool) (method endpoint : String)
variable (headers : List (String × String)) (body : Option Json)
variable (mode : RespMode) (t : Transport)

/-- Helper: the requests performed by `makeRequest` are either none or
exactly the one assembled request. -/
theorem makeRequest_sent_cases :
    (makeRequest m method endpoint headers body t).sent = [] ∨
    (makeRequest m method endpoint headers body t).sent =
      [⟨method, m.URL ++ endpoint, buildHeaders headers, body⟩] := by
  unfold makeRequest
  split
  · exact Or.inl rfl
  · split
    · exact Or.inl rfl
    · split
      · exact Or.inr rfl
      · exact Or.inr rfl

/-- Helper: the receiver field of any `runOp` outcome is the input
client. -/
theorem runOp_receiver :
    (runOp m validate method endpoint headers body mode t).receiver = m := by
  unfold runOp
  split
  · split <;> rfl
  · rfl

/-- Helper: the requests performed by `runOp` are either none or exactly
the one assembled request. -/
theorem runOp_sent_cases :
    (runOp m validate method endpoint headers body mode t).sent = [] ∨
    (runOp m validate method endpoint headers body mode t).sent =
      [⟨method, m.URL ++ endpoint, buildHeaders headers, body⟩] := by
  have h := makeRequest_sent_cases m method endpoint headers body t
  unfold runOp
  split
  · split
    · exact Or.inl rfl
    · exact h
  · exact h

/-- Helper: at most one request is ever performed. -/
theorem runOp_sent_length_le_one :
    (runOp m validate method endpoint headers body mode t).sent.length ≤ 1 := by
  rcases runOp_sent_cases m validate method endpoint headers body mode t with
    h | h <;> rw [h] <;> simp

/-- Helper: when validation is skipped or passes, marshalling succeeds (or
there is no body), and request construction succeeds, exactly one request
is performed. -/
theorem runOp_sent_length_one
    (hv : validate = false ∨ m.Database ≠ "")
    (hm : body = none ∨ t.marshalFails = false)
    (hn : t.newRequestFails = false) :
    (runOp m validate method endpoint headers body mode t).sent.length = 1 := by
  have hmk : (makeRequest m method endpoint headers body t).sent.length = 1 := by
    unfold makeRequest
    have hbm : (body.isSome && t.marshalFails) = false := by
      rcases hm with h | h <;> simp [h]
    rw [hbm, hn]
    simp only [Bool.false_eq_true, if_false]
    split <;> rfl
  unfold runOp
  split
  · rename_i hval
    have h : m.Database ≠ "" := by
      rcases hv with h | h
      · rw [h] at hval
        exact absurd hval (by simp)
      · exact h
    have hok : validateDatabase m = .ok () := by
      unfold validateDatabase
      simp [h]
    rw [hok]
    exact hmk
  · exact hmk

/-- Helper: with an empty database name, a validating operation returns
the validation error without performing any request. -/
theorem runOp_validate_empty (h : m.Database = "") :
    runOp m true method endpoint headers body mode t =
      ⟨m, [], .error .noDatabaseSpecified⟩ := by
  unfold runOp validateDatabase
  simp [h]

/-- Helper: every error produced by `handleResponse` is a body-read error,
or — only in `decodeMap` mode — a decode error. -/
theorem handleResponse_error_cases (e : GoError)
    (h : handleResponse mode t = .error e) :
    e = .readError ∨ (mode = RespMode.decodeMap ∧ e = .decodeError) := by
  rcases mode with _ | _ | _
  · rcases hd : t.decodeResult with _ | j
    · simp [handleResponse, hd] at h
      exact Or.inr ⟨rfl, h.symm⟩
    · rcases j <;> simp [handleResponse, hd] at h <;>
        exact Or.inr ⟨rfl, h.symm⟩
  · by_cases hr : t.readAllFails = true <;> simp [handleResponse, hr] at h
    exact Or.inl h.symm
  · rcases hd : t.decodeResult with _ | j
    · by_cases hr : t.fallbackReadFails = true <;>
        simp [handleResponse, hd, hr] at h
      exact Or.inl h.symm
    · simp [handleResponse, hd] at h

/-- Helper: every error returned by `makeRequest` is a marshalling,
request-construction, or send error. -/
theorem makeRequest_error_cases (e : GoError)
    (h : (makeRequest m method endpoint headers body t).result = .error e) :
    e = .marshalError ∨ e = .newRequestError ∨ e = .sendError := by
  unfold makeRequest at h
  split at h
  · simp_all
  · split at h
    · simp_all
    · split at h <;> simp_all

/-- Helper: every error returned by `sendAndHandle` is a marshalling,
request-construction, send, or body-read error, or — only in `decodeMap`
mode — a decode error. -/
theorem sendAndHandle_error_cases (e : GoError)
    (h₀ : (sendAndHandle m method endpoint headers body mode t).result =
      .error e) :
    e = .marshalError ∨ e = .newRequestError ∨ e = .sendError ∨
      e = .readError ∨ (mode = RespMode.decodeMap ∧ e = .decodeError) := by
  unfold sendAndHandle at h₀
  rcases hmr : (makeRequest m method endpoint headers body t).result with
    e₁ | u
  · rw [hmr] at h₀
    have h₂ : e₁ = e := by simpa using h₀
    subst h₂
    have := makeRequest_error_cases m method endpoint headers body t e₁ hmr
    tauto
  · rw [hmr] at h₀
    have := handleResponse_error_cases mode t e (by simpa using h₀)
    tauto

/-- Helper: every error returned by `runOp` is the validation error, a
marshalling error, a request-construction error, a send error, a
body-read error, or — only in `decodeMap` mode — a decode error. -/
theorem runOp_error_cases (e : GoError)
    (h : (runOp m validate method endpoint headers body mode t).result =
      .error e) :
    e = .noDatabaseSpecified ∨ e = .marshalError ∨ e = .newRequestError ∨
      e = .sendError ∨ e = .readError ∨
      (mode = RespMode.decodeMap ∧ e = .decodeError) := by
  have hsend := sendAndHandle_error_cases m method endpoint headers body mode t e
  unfold runOp at h
  split at h
  · rcases hdb : validateDatabase m with e₁ | u
    · rw [hdb] at h
      have h₂ : e₁ = e := by simpa using h
      subst h₂
      have h₃ : e₁ = .noDatabaseSpecified := by
        unfold validateDatabase at hdb
        split at hdb <;> simp_all
      exact Or.inl h₃
    · rw [hdb] at h
      have := hsend h
      tauto
  · have := hsend h
    tauto

/-- Helper: when marshalling succeeds (or there is no body), request
construction succeeds, and sending succeeds, `makeRequest` returns the
response handle and has performed exactly the assembled request. -/
theorem makeRequest_ok
    (hm : body = none ∨ t.marshalFails = false)
    (hn : t.newRequestFails = false) (hs : t.sendFails = false) :
    makeRequest m method endpoint headers body t =
      ⟨.ok (), [⟨method, m.URL ++ endpoint, buildHeaders headers, body⟩]⟩ := by
  unfold makeRequest
  have hbm : (body.isSome && t.marshalFails) = false := by
    rcases hm with h | h <;> simp [h]
  rw [hbm, hn, hs]
  simp

/-- Helper: on the full success path the result of `runOp` is exactly the
handled response. -/
theorem runOp_ok_result
    (hv : validate = false ∨ m.Database ≠ "")
    (hm : body = none ∨ t.marshalFails = false)
    (hn : t.newRequestFails = false) (hs : t.sendFails = false) :
    (runOp m validate method endpoint headers body mode t).result =
      handleResponse mode t := by
  have hmk := makeRequest_ok m method endpoint headers body t hm hn hs
  unfold runOp
  split
  · rename_i hval
    have h : m.Database ≠ "" := by
      rcases hv with h | h
      · rw [h] at hval
        exact absurd hval (by simp)
      · exact h
    have hok : validateDatabase m = .ok () := by
      unfold validateDatabase
      simp [h]
    rw [hok]
    unfold sendAndHandle
    rw [hmk]
  · unfold sendAndHandle
    rw [hmk]

/-- Helper: any request in the `sent` list of `runOp` is the assembled
request: given method, base URL plus endpoint, the built headers, and the
given body. -/
theorem runOp_mem_sent (r : HttpRequest)
    (hr : r ∈ (runOp m validate method endpoint headers body mode t).sent) :
    r = ⟨method, m.URL ++ endpoint, buildHeaders headers, body⟩ := by
  rcases runOp_sent_cases m validate method endpoint headers body mode t with
    h | h <;> rw [h] at hr
  · cases hr
  · simpa using hr

/-- Helper: every performed request goes to the base URL with the fixed
endpoint appended. -/
theorem runOp_url_all :
    ((runOp m validate method endpoint headers body mode t).sent.all
      (fun r => r.url == m.URL ++ endpoint)) = true := by
  rcases runOp_sent_cases m validate method endpoint headers body mode t with
    h | h <;> rw [h] <;> simp

/-- Helper: with an empty database name, a validating operation has the
validation error as result and an empty request list. -/
theorem runOp_validate_empty_parts (h : m.Database = "") :
    (runOp m true method endpoint headers body mode t).result =
      .error .noDatabaseSpecified ∧
    (runOp m true method endpoint headers body mode t).sent = [] := by
  rw [runOp_validate_empty m method endpoint headers body mode t h]
  exact ⟨rfl, rfl⟩

/-- Helper: in `decodeOrText` mode, a decode failure followed by a
successful read of the remaining stream yields the raw text with a nil
error. -/
theorem handleResponse_decodeOrText_fallback (hdec : t.decodeResult = none)
    (hfb : t.fallbackReadFails = false) :
    handleResponse RespMode.decodeOrText t =
      .ok (GoValue.str t.fallbackBytes) := by
  unfold handleResponse
  rw [hdec, hfb]
  rfl

/-- Helper: in `decodeMap` mode a decode failure yields the decode
error. -/
theorem handleResponse_decodeMap_fail (hdec : t.decodeResult = none) :
    handleResponse RespMode.decodeMap t = .error .decodeError := by
  unfold handleResponse
  rw [hdec]

end Lemmas

/-- A concrete, fully configured client used by witnesses and
counterexamples. -/
def mW : MenousDB := { URL := "http://host/", Key := "k", Database := "db" }

/-- A concrete client with an empty database name. -/
def mEmpty : MenousDB := { URL := "http://host/", Key := "k", Database := "" }

/-- A concrete oracle on which every effectful step succeeds and the
response decodes to JSON `null`. -/
def tOk : Transport :=
  { marshalFails := false, newRequestFails := false, sendFails := false,
    decodeResult := some Json.null, readAllFails := false,
    bodyBytes := "ok", fallbackReadFails := false, fallbackBytes := "raw" }

/-- A concrete oracle on which the network succeeds but the response body
is not valid JSON. -/
def tDecodeFail : Transport :=
  { tOk with decodeResult := none }

/-- Helper: `String.data` distributes over string append. -/
theorem string_data_append (a b : String) : (a ++ b).data = a.data ++ b.data :=
  rfl

/-- Helper: appending `"/"` to any string yields a string that ends in
`"/"`. -/
theorem hasSuffix_append_slash (s : String) :
    hasSuffix (s ++ "/") "/" = true := by
  unfold hasSuffix
  rw [string_data_append]
  show (['/'].isSuffixOf (s.data ++ ['/'])) = true
  rw [List.isSuffixOf_iff_suffix]
  exact List.suffix_append s.data ['/']

/-- C8: `NewMenousDB url key database` stores `key` and `database`
unchanged, stores `url` itself when it already ends with `"/"` and
`url ++ "/"` otherwise; hence the stored URL always ends with `"/"` and
the normalization is idempotent. -/
theorem C8_new_client_normalizes (url key database : String) :
    (NewMenousDB url key database).Key = key ∧
    (NewMenousDB url key database).Database = database ∧
    (NewMenousDB url key database).URL =
      (if hasSuffix url "/" then url else url ++ "/") ∧
    hasSuffix (NewMenousDB url key database).URL "/" = true ∧
    NewMenousDB (NewMenousDB url key database).URL key database =
      NewMenousDB url key database := by
  have hslash : hasSuffix (NewMenousDB url key database).URL "/" = true := by
    by_cases h : hasSuffix url "/"
    · simp [NewMenousDB, h]
    · simp only [NewMenousDB, h, if_false, Bool.false_eq_true]
      exact hasSuffix_append_slash url
  refine ⟨rfl, rfl, rfl, hslash, ?_⟩
  have hslash2 :
      hasSuffix (if hasSuffix url "/" then url else url ++ "/") "/" = true :=
    hslash
  simp [NewMenousDB, hslash2]

/-- C9: no exposed operation mutates the client: the receiver state after
any call (whatever the oracle outcome) has the same `URL`, `Key` and
`Database` fields as before, for all fifteen HTTP operations and for the
`String()` method. -/
theorem C9_no_mutation (m : MenousDB) (t : Transport) (table : String)
    (attributes columns : List String) (values : Json)
    (conditions vals : List (String × Json)) :
    (ReadDB m t).receiver = m ∧
    (CreateDB m t).receiver = m ∧
    (DeleteDB m t).receiver = m ∧
    (CheckDBExists m t).receiver = m ∧
    (CreateTable m table attributes t).receiver = m ∧
    (CheckTableExists m table t).receiver = m ∧
    (InsertIntoTable m table values t).receiver = m ∧
    (GetTable m table t).receiver = m ∧
    (SelectWhere m table conditions t).receiver = m ∧
    (SelectColumns m table columns t).receiver = m ∧
    (SelectColumnsWhere m table columns conditions t).receiver = m ∧
    (DeleteWhere m table conditions t).receiver = m ∧
    (DeleteTable m table t).receiver = m ∧
    (UpdateWhere m table conditions vals t).receiver = m ∧
    (GetDatabases m t).receiver = m ∧
    (stringMethod m).1 = m := by
  refine ⟨?_, ?_, ?_, ?_, ?_, ?_, ?_, ?_, ?_, ?_, ?_, ?_, ?_, ?_, ?_, rfl⟩ <;>
    apply runOp_receiver

/-- C10: the `String()` method returns exactly the `Database` field, and
it returns the empty string precisely when `validateDatabase` — the
validation step of every database-scoped operation — fails with the
`no database specified` error. -/
theorem C10_string_is_database (m : MenousDB) :
    (stringMethod m).2 = m.Database ∧
    ((stringMethod m).2 = "" ↔
      validateDatabase m = .error .noDatabaseSpecified) := by
  refine ⟨rfl, ?_, ?_⟩
  · intro h
    have hdb : m.Database = "" := h
    simp [validateDatabase, hdb]
  · intro h
    unfold validateDatabase at h
    split at h
    · rename_i hdb
      exact hdb
    · cases h

/-- C4: each operation sends its requests to the fixed endpoint name
appended to the client's base URL: `read-db`, `create-db`,
`del-database`, `check-db-exists`, `create-table`, `check-table-exists`,
`insert-into-table`, `get-table`, `select-where`, `select-columns`,
`select-columns-where`, `delete-where`, `delete-table`, `update-table`
and `get-databases` respectively. -/
theorem C4_fixed_endpoints (m : MenousDB) (t : Transport) (table : String)
    (attributes columns : List String) (values : Json)
    (conditions vals : List (String × Json)) :
    ((ReadDB m t).sent.all
      (fun r => r.url == m.URL ++ "read-db")) = true ∧
    ((CreateDB m t).sent.all
      (fun r => r.url == m.URL ++ "create-db")) = true ∧
    ((DeleteDB m t).sent.all
      (fun r => r.url == m.URL ++ "del-database")) = true ∧
    ((CheckDBExists m t).sent.all
      (fun r => r.url == m.URL ++ "check-db-exists")) = true ∧
    ((CreateTable m table attributes t).sent.all
      (fun r => r.url == m.URL ++ "create-table")) = true ∧
    ((CheckTableExists m table t).sent.all
      (fun r => r.url == m.URL ++ "check-table-exists")) = true ∧
    ((InsertIntoTable m table values t).sent.all
      (fun r => r.url == m.URL ++ "insert-into-table")) = true ∧
    ((GetTable m table t).sent.all
      (fun r => r.url == m.URL ++ "get-table")) = true ∧
    ((SelectWhere m table conditions t).sent.all
      (fun r => r.url == m.URL ++ "select-where")) = true ∧
    ((SelectColumns m table columns t).sent.all
      (fun r => r.url == m.URL ++ "select-columns")) = true ∧
    ((SelectColumnsWhere m table columns conditions t).sent.all
      (fun r => r.url == m.URL ++ "select-columns-where")) = true ∧
    ((DeleteWhere m table conditions t).sent.all
      (fun r => r.url == m.URL ++ "delete-where")) = true ∧
    ((DeleteTable m table t).sent.all
      (fun r => r.url == m.URL ++ "delete-table")) = true ∧
    ((UpdateWhere m table conditions vals t).sent.all
      (fun r => r.url == m.URL ++ "update-table")) = true ∧
    ((GetDatabases m t).sent.all
      (fun r => r.url == m.URL ++ "get-databases")) = true := by
  refine ⟨?_, ?_, ?_, ?_, ?_, ?_, ?_, ?_, ?_, ?_, ?_, ?_, ?_, ?_, ?_⟩ <;>
    apply runOp_url_all

/-- C5: every performed request carries the API key in header `key` and
`Content-Type: application/json`; database-scoped operations additionally
send the database name in header `database`, and table-scoped operations
additionally send their table argument in header `table`. -/
theorem C5_request_headers (m : MenousDB) (t : Transport) (table : String)
    (attributes columns : List String) (values : Json)
    (conditions vals : List (String × Json)) :
    (∀ r ∈ (ReadDB m t).sent,
      getHeader r.headers "key" = some m.Key ∧
      getHeader r.headers "Content-Type" = some "application/json" ∧
      getHeader r.headers "database" = some m.Database) ∧
    (∀ r ∈ (CreateDB m t).sent,
      getHeader r.headers "key" = some m.Key ∧
      getHeader r.headers "Content-Type" = some "application/json" ∧
      getHeader r.headers "database" = some m.Database) ∧
    (∀ r ∈ (DeleteDB m t).sent,
      getHeader r.headers "key" = some m.Key ∧
      getHeader r.headers "Content-Type" = some "application/json" ∧
      getHeader r.headers "database" = some m.Database) ∧
    (∀ r ∈ (CheckDBExists m t).sent,
      getHeader r.headers "key" = some m.Key ∧
      getHeader r.headers "Content-Type" = some "application/json" ∧
      getHeader r.headers "database" = some m.Database) ∧
    (∀ r ∈ (CreateTable m table attributes t).sent,
      getHeader r.headers "key" = some m.Key ∧
      getHeader r.headers "Content-Type" = some "application/json" ∧
      getHeader r.headers "database" = some m.Database ∧
      getHeader r.headers "table" = some table) ∧
    (∀ r ∈ (CheckTableExists m table t).sent,
      getHeader r.headers "key" = some m.Key ∧
      getHeader r.headers "Content-Type" = some "application/json" ∧
      getHeader r.headers "database" = some m.Database ∧
      getHeader r.headers "table" = some table) ∧
    (∀ r ∈ (InsertIntoTable m table values t).sent,
      getHeader r.headers "key" = some m.Key ∧
      getHeader r.headers "Content-Type" = some "application/json" ∧
      getHeader r.headers "database" = some m.Database ∧
      getHeader r.headers "table" = some table) ∧
    (∀ r ∈ (GetTable m table t).sent,
      getHeader r.headers "key" = some m.Key ∧
      getHeader r.headers "Content-Type" = some "application/json" ∧
      getHeader r.headers "database" = some m.Database ∧
      getHeader r.headers "table" = some table) ∧
    (∀ r ∈ (SelectWhere m table conditions t).sent,
      getHeader r.headers "key" = some m.Key ∧
      getHeader r.headers "Content-Type" = some "application/json" ∧
      getHeader r.headers "database" = some m.Database ∧
      getHeader r.headers "table" = some table) ∧
    (∀ r ∈ (SelectColumns m table columns t).sent,
      getHeader r.headers "key" = some m.Key ∧
      getHeader r.headers "Content-Type" = some "application/json" ∧
      getHeader r.headers "database" = some m.Database ∧
      getHeader r.headers "table" = some table) ∧
    (∀ r ∈ (SelectColumnsWhere m table columns conditions t).sent,
      getHeader r.headers "key" = some m.Key ∧
      getHeader r.headers "Content-Type" = some "application/json" ∧
      getHeader r.headers "database" = some m.Database ∧
      getHeader r.headers "table" = some table) ∧
    (∀ r ∈ (DeleteWhere m table conditions t).sent,
      getHeader r.headers "key" = some m.Key ∧
      getHeader r.headers "Content-Type" = some "application/json" ∧
      getHeader r.headers "database" = some m.Database ∧
      getHeader r.headers "table" = some table) ∧
    (∀ r ∈ (DeleteTable m table t).sent,
      getHeader r.headers "key" = some m.Key ∧
      getHeader r.headers "Content-Type" = some "application/json" ∧
      getHeader r.headers "database" = some m.Database ∧
      getHeader r.headers "table" = some table) ∧
    (∀ r ∈ (UpdateWhere m table conditions vals t).sent,
      getHeader r.headers "key" = some m.Key ∧
      getHeader r.headers "Content-Type" = some "application/json" ∧
      getHeader r.headers "database" = some m.Database ∧
      getHeader r.headers "table" = some table) ∧
    (∀ r ∈ (GetDatabases m t).sent,
      getHeader r.headers "key" = some m.Key ∧
      getHeader r.headers "Content-Type" = some "application/json") := by
  refine ⟨?_, ?_, ?_, ?_, ?_, ?_, ?_, ?_, ?_, ?_, ?_, ?_, ?_, ?_, ?_⟩ <;>
    intro r hr <;>
    (have h := runOp_mem_sent _ _ _ _ _ _ _ _ r hr
     subst h
     first
      | exact ⟨rfl, rfl, rfl, rfl⟩
      | exact ⟨rfl, rfl, rfl⟩
      | exact ⟨rfl, rfl⟩)

/-- Concrete request used by the C5 witness: the one request performed by
`CreateTable` on the concrete client and oracle. -/
def reqC5W : HttpRequest :=
  { method := "POST", url := "http://host/" ++ "create-table",
    headers :=
      buildHeaders [("key", "k"), ("database", "db"), ("table", "people")],
    body := some (Json.obj [("attributes", Json.arr [Json.str "a"])]) }

/-- Witness for C5 at a concrete input: the request performed by
`CreateTable` carries all four headers. -/
theorem C5_request_headers_witness :
    (reqC5W ∈ (CreateTable mW "people" ["a"] tOk).sent) ∧
    (getHeader reqC5W.headers "key" = some "k" ∧
     getHeader reqC5W.headers "Content-Type" = some "application/json" ∧
     getHeader reqC5W.headers "database" = some "db" ∧
     getHeader reqC5W.headers "table" = some "people") := by
  have hmem : reqC5W ∈ (CreateTable mW "people" ["a"] tOk).sent :=
    List.Mem.head _
  exact ⟨hmem,
    (C5_request_headers mW tOk "people" ["a"] [] Json.null [] []).2.2.2.2.1
      reqC5W hmem⟩

/-- C6: every body-carrying operation sends the JSON object wrapping its
arguments under the fixed keys (`attributes`, `values`, `conditions`,
`columns`, or their combinations, in marshalled key order), and every
other operation sends no body. -/
theorem C6_request_bodies (m : MenousDB) (t : Transport) (table : String)
    (attributes columns : List String) (values : Json)
    (conditions vals : List (String × Json)) :
    (∀ r ∈ (ReadDB m t).sent, r.body = none) ∧
    (∀ r ∈ (CreateDB m t).sent, r.body = none) ∧
    (∀ r ∈ (DeleteDB m t).sent, r.body = none) ∧
    (∀ r ∈ (CheckDBExists m t).sent, r.body = none) ∧
    (∀ r ∈ (CreateTable m table attributes t).sent,
      r.body = some (Json.obj
        [("attributes", Json.arr (attributes.map Json.str))])) ∧
    (∀ r ∈ (CheckTableExists m table t).sent, r.body = none) ∧
    (∀ r ∈ (InsertIntoTable m table values t).sent,
      r.body = some (Json.obj [("values", values)])) ∧
    (∀ r ∈ (GetTable m table t).sent, r.body = none) ∧
    (∀ r ∈ (SelectWhere m table conditions t).sent,
      r.body = some (Json.obj [("conditions", Json.obj conditions)])) ∧
    (∀ r ∈ (SelectColumns m table columns t).sent,
      r.body = some (Json.obj
        [("columns", Json.arr (columns.map Json.str))])) ∧
    (∀ r ∈ (SelectColumnsWhere m table columns conditions t).sent,
      r.body = some (Json.obj
        [("columns", Json.arr (columns.map Json.str)),
         ("conditions", Json.obj conditions)])) ∧
    (∀ r ∈ (DeleteWhere m table conditions t).sent,
      r.body = some (Json.obj [("conditions", Json.obj conditions)])) ∧
    (∀ r ∈ (DeleteTable m table t).sent, r.body = none) ∧
    (∀ r ∈ (UpdateWhere m table conditions vals t).sent,
      r.body = some (Json.obj
        [("conditions", Json.obj conditions),
         ("values", Json.obj vals)])) ∧
    (∀ r ∈ (GetDatabases m t).sent, r.body = none) := by
  refine ⟨?_, ?_, ?_, ?_, ?_, ?_, ?_, ?_, ?_, ?_, ?_, ?_, ?_, ?_, ?_⟩ <;>
    intro r hr <;>
    (have h := runOp_mem_sent _ _ _ _ _ _ _ _ r hr
     subst h
     rfl)

/-- Concrete request used by the C6 witness: the one request performed by
`InsertIntoTable` on the concrete client and oracle. -/
def reqC6W : HttpRequest :=
  { method := "POST", url := "http://host/" ++ "insert-into-table",
    headers :=
      buildHeaders [("key", "k"), ("database", "db"), ("table", "people")],
    body := some (Json.obj [("values", Json.str "v")]) }

/-- Witness for C6 at a concrete input: the request performed by
`InsertIntoTable` carries the body wrapping its argument under
`values`. -/
theorem C6_request_bodies_witness :
    (reqC6W ∈ (InsertIntoTable mW "people" (Json.str "v") tOk).sent) ∧
    reqC6W.body = some (Json.obj [("values", Json.str "v")]) := by
  have hmem : reqC6W ∈ (InsertIntoTable mW "people" (Json.str "v") tOk).sent :=
    List.Mem.head _
  have h := (C6_request_bodies mW tOk "people" ["a"] [] (Json.str "v")
    [] []).2.2.2.2.2.2.1 reqC6W hmem
  exact ⟨hmem, h⟩

/-- C7: every invocation performs at most one HTTP request, and exactly
one when database validation, body marshalling and request construction
succeed (for `GetDatabases` no validation is involved); no operation
retries. -/
theorem C7_single_request (m : MenousDB) (t : Transport) (table : String)
    (attributes columns : List String) (values : Json)
    (conditions vals : List (String × Json)) :
    ((ReadDB m t).sent.length ≤ 1 ∧
     (CreateDB m t).sent.length ≤ 1 ∧
     (DeleteDB m t).sent.length ≤ 1 ∧
     (CheckDBExists m t).sent.length ≤ 1 ∧
     (CreateTable m table attributes t).sent.length ≤ 1 ∧
     (CheckTableExists m table t).sent.length ≤ 1 ∧
     (InsertIntoTable m table values t).sent.length ≤ 1 ∧
     (GetTable m table t).sent.length ≤ 1 ∧
     (SelectWhere m table conditions t).sent.length ≤ 1 ∧
     (SelectColumns m table columns t).sent.length ≤ 1 ∧
     (SelectColumnsWhere m table columns conditions t).sent.length ≤ 1 ∧
     (DeleteWhere m table conditions t).sent.length ≤ 1 ∧
     (DeleteTable m table t).sent.length ≤ 1 ∧
     (UpdateWhere m table conditions vals t).sent.length ≤ 1 ∧
     (GetDatabases m t).sent.length ≤ 1) ∧
    ((m.Database ≠ "" → t.newRequestFails = false →
       (ReadDB m t).sent.length = 1) ∧
     (m.Database ≠ "" → t.newRequestFails = false →
       (CreateDB m t).sent.length = 1) ∧
     (m.Database ≠ "" → t.newRequestFails = false →
       (DeleteDB m t).sent.length = 1) ∧
     (m.Database ≠ "" → t.newRequestFails = false →
       (CheckDBExists m t).sent.length = 1) ∧
     (m.Database ≠ "" → t.marshalFails = false → t.newRequestFails = false →
       (CreateTable m table attributes t).sent.length = 1) ∧
     (m.Database ≠ "" → t.newRequestFails = false →
       (CheckTableExists m table t).sent.length = 1) ∧
     (m.Database ≠ "" → t.marshalFails = false → t.newRequestFails = false →
       (InsertIntoTable m table values t).sent.length = 1) ∧
     (m.Database ≠ "" → t.newRequestFails = false →
       (GetTable m table t).sent.length = 1) ∧
     (m.Database ≠ "" → t.marshalFails = false → t.newRequestFails = false →
       (SelectWhere m table conditions t).sent.length = 1) ∧
     (m.Database ≠ "" → t.marshalFails = false → t.newRequestFails = false →
       (SelectColumns m table columns t).sent.length = 1) ∧
     (m.Database ≠ "" → t.marshalFails = false → t.newRequestFails = false →
       (SelectColumnsWhere m table columns conditions t).sent.length = 1) ∧
     (m.Database ≠ "" → t.marshalFails = false → t.newRequestFails = false →
       (DeleteWhere m table conditions t).sent.length = 1) ∧
     (m.Database ≠ "" → t.newRequestFails = false →
       (DeleteTable m table t).sent.length = 1) ∧
     (m.Database ≠ "" → t.marshalFails = false → t.newRequestFails = false →
       (UpdateWhere m table conditions vals t).sent.length = 1) ∧
     (t.newRequestFails = false →
       (GetDatabases m t).sent.length = 1)) := by
  constructor
  · refine ⟨?_, ?_, ?_, ?_, ?_, ?_, ?_, ?_, ?_, ?_, ?_, ?_, ?_, ?_, ?_⟩ <;>
      apply runOp_sent_length_le_one
  · refine ⟨?_, ?_, ?_, ?_, ?_, ?_, ?_, ?_, ?_, ?_, ?_, ?_, ?_, ?_, ?_⟩ <;>
      intros <;>
      first
        | exact runOp_sent_length_one _ _ _ _ _ _ _ _
            (Or.inr (by assumption)) (Or.inl rfl) (by assumption)
        | exact runOp_sent_length_one _ _ _ _ _ _ _ _
            (Or.inr (by assumption)) (Or.inr (by assumption)) (by assumption)
        | exact runOp_sent_length_one _ _ _ _ _ _ _ _
            (Or.inl rfl) (Or.inl rfl) (by assumption)

/-- Witness for C7 at a concrete input: on the all-success oracle, ReadDB
performs at most one and exactly one request. -/
theorem C7_single_request_witness :
    (ReadDB mW tOk).sent.length ≤ 1 ∧ (ReadDB mW tOk).sent.length = 1 := by
  have h := C7_single_request mW tOk "people" ["a"] [] Json.null [] []
  exact ⟨h.1.1, h.2.1 (by decide) rfl⟩

/-- C1 counterexample: on a concrete client and a response body that is
not valid JSON, `ReadDB` returns the decode error instead of the raw
response text with a nil error. -/
theorem C1_counterexample :
    (ReadDB mW tDecodeFail).result = Except.error GoError.decodeError := rfl

/-- C1 (amended): for GetTable, SelectWhere, SelectColumns,
SelectColumnsWhere, DeleteWhere, DeleteTable, UpdateWhere and
GetDatabases, a JSON decode failure makes the operation return the
response text read from the body as a string with a nil error; ReadDB
alone instead returns the decode error. -/
theorem C1_decode_fallback (m : MenousDB) (t : Transport) (table : String)
    (columns : List String) (conditions vals : List (String × Json))
    (hdb : m.Database ≠ "") (hm : t.marshalFails = false)
    (hn : t.newRequestFails = false) (hs : t.sendFails = false)
    (hdec : t.decodeResult = none) (hfb : t.fallbackReadFails = false) :
    (GetTable m table t).result = .ok (GoValue.str t.fallbackBytes) ∧
    (SelectWhere m table conditions t).result =
      .ok (GoValue.str t.fallbackBytes) ∧
    (SelectColumns m table columns t).result =
      .ok (GoValue.str t.fallbackBytes) ∧
    (SelectColumnsWhere m table columns conditions t).result =
      .ok (GoValue.str t.fallbackBytes) ∧
    (DeleteWhere m table conditions t).result =
      .ok (GoValue.str t.fallbackBytes) ∧
    (DeleteTable m table t).result = .ok (GoValue.str t.fallbackBytes) ∧
    (UpdateWhere m table conditions vals t).result =
      .ok (GoValue.str t.fallbackBytes) ∧
    (GetDatabases m t).result = .ok (GoValue.str t.fallbackBytes) ∧
    (ReadDB m t).result = Except.error GoError.decodeError := by
  have hfall := handleResponse_decodeOrText_fallback t hdec hfb
  have hmapfail := handleResponse_decodeMap_fail t hdec
  refine ⟨?_, ?_, ?_, ?_, ?_, ?_, ?_, ?_, ?_⟩ <;>
    first
      | exact (runOp_ok_result _ _ _ _ _ _ _ _
          (Or.inr hdb) (Or.inl rfl) hn hs).trans hfall
      | exact (runOp_ok_result _ _ _ _ _ _ _ _
          (Or.inr hdb) (Or.inr hm) hn hs).trans hfall
      | exact (runOp_ok_result _ _ _ _ _ _ _ _
          (Or.inl rfl) (Or.inl rfl) hn hs).trans hfall
      | exact (runOp_ok_result _ _ _ _ _ _ _ _
          (Or.inr hdb) (Or.inl rfl) hn hs).trans hmapfail

/-- Witness for C1 at a concrete input: `GetTable` falls back to the raw
text while `ReadDB` returns the decode error. -/
theorem C1_decode_fallback_witness :
    (GetTable mW "people" tDecodeFail).result = .ok (GoValue.str "raw") ∧
    (ReadDB mW tDecodeFail).result = Except.error GoError.decodeError := by
  have h := C1_decode_fallback mW tDecodeFail "people" [] [] []
    (by decide) rfl rfl rfl rfl rfl
  exact ⟨h.1, h.2.2.2.2.2.2.2.2⟩

/-- C2 counterexample: on a concrete client whose `Database` field is
empty, `GetDatabases` still performs one HTTP request and returns a
decoded value, not the `no database specified` error. -/
theorem C2_counterexample :
    mEmpty.Database = "" ∧
    (GetDatabases mEmpty tOk).sent.length = 1 ∧
    (GetDatabases mEmpty tOk).result = .ok (GoValue.json Json.null) :=
  ⟨rfl, rfl, rfl⟩

/-- C2 (amended): every exposed operation except `GetDatabases` first
validates that a database name is configured: with an empty `Database`
field each returns the `no database specified` error and performs no
request; `GetDatabases` performs no validation and can never return that
error. -/
theorem C2_database_validation (m : MenousDB) (t : Transport)
    (table : String) (attributes columns : List String) (values : Json)
    (conditions vals : List (String × Json)) (h : m.Database = "") :
    ((ReadDB m t).result = .error .noDatabaseSpecified ∧
      (ReadDB m t).sent = []) ∧
    ((CreateDB m t).result = .error .noDatabaseSpecified ∧
      (CreateDB m t).sent = []) ∧
    ((DeleteDB m t).result = .error .noDatabaseSpecified ∧
      (DeleteDB m t).sent = []) ∧
    ((CheckDBExists m t).result = .error .noDatabaseSpecified ∧
      (CheckDBExists m t).sent = []) ∧
    ((CreateTable m table attributes t).result =
        .error .noDatabaseSpecified ∧
      (CreateTable m table attributes t).sent = []) ∧
    ((CheckTableExists m table t).result = .error .noDatabaseSpecified ∧
      (CheckTableExists m table t).sent = []) ∧
    ((InsertIntoTable m table values t).result =
        .error .noDatabaseSpecified ∧
      (InsertIntoTable m table values t).sent = []) ∧
    ((GetTable m table t).result = .error .noDatabaseSpecified ∧
      (GetTable m table t).sent = []) ∧
    ((SelectWhere m table conditions t).result =
        .error .noDatabaseSpecified ∧
      (SelectWhere m table conditions t).sent = []) ∧
    ((SelectColumns m table columns t).result =
        .error .noDatabaseSpecified ∧
      (SelectColumns m table columns t).sent = []) ∧
    ((SelectColumnsWhere m table columns conditions t).result =
        .error .noDatabaseSpecified ∧
      (SelectColumnsWhere m table columns conditions t).sent = []) ∧
    ((DeleteWhere m table conditions t).result =
        .error .noDatabaseSpecified ∧
      (DeleteWhere m table conditions t).sent = []) ∧
    ((DeleteTable m table t).result = .error .noDatabaseSpecified ∧
      (DeleteTable m table t).sent = []) ∧
    ((UpdateWhere m table conditions vals t).result =
        .error .noDatabaseSpecified ∧
      (UpdateWhere m table conditions vals t).sent = []) ∧
    GoError.message .noDatabaseSpecified = "no database specified" ∧
    (∀ e, (GetDatabases m t).result = .error e →
      e ≠ GoError.noDatabaseSpecified) := by
  refine ⟨?_, ?_, ?_, ?_, ?_, ?_, ?_, ?_, ?_, ?_, ?_, ?_, ?_, ?_, rfl, ?_⟩
  all_goals
    first
      | exact runOp_validate_empty_parts _ _ _ _ _ _ _ h
      | (intro e he
         have h₁ := sendAndHandle_error_cases m "GET" "get-databases"
           [("key", m.Key)] none RespMode.decodeOrText t e he
         rcases h₁ with h₁ | h₁ | h₁ | h₁ | ⟨hmode, h₁⟩
         · subst h₁; decide
         · subst h₁; decide
         · subst h₁; decide
         · subst h₁; decide
         · cases hmode)

/-- Witness for C2 at a concrete input: with an empty database name,
`ReadDB` returns the validation error and performs no request. -/
theorem C2_database_validation_witness :
    (ReadDB mEmpty tOk).result = Except.error GoError.noDatabaseSpecified ∧
    (ReadDB mEmpty tOk).sent = [] :=
  (C2_database_validation mEmpty tOk "people" ["a"] [] Json.null [] [] rfl).1

/-- Helper: outside `decodeMap` mode, every error returned by `runOp` is
the validation error or a transport failure — never a decode error. -/
theorem runOp_error_cases_no_decode (m : MenousDB) (validate : Bool)
    (method endpoint : String) (headers : List (String × String))
    (body : Option Json) (mode : RespMode) (t : Transport) (e : GoError)
    (hmode : mode ≠ RespMode.decodeMap)
    (h : (runOp m validate method endpoint headers body mode t).result =
      .error e) :
    e = .noDatabaseSpecified ∨ e = .marshalError ∨ e = .newRequestError ∨
      e = .sendError ∨ e = .readError := by
  have h₁ := runOp_error_cases m validate method endpoint headers body mode
    t e h
  tauto

/-- C3 counterexample: on a fully configured client, a decode failure
does produce an error return — `ReadDB` returns the decode error. -/
theorem C3_counterexample :
    mW.Database ≠ "" ∧
    (ReadDB mW tDecodeFail).result = Except.error GoError.decodeError :=
  ⟨by decide, rfl⟩

/-- C3 (amended): every error returned by any operation arises from the
missing database configuration or from a transport failure (marshalling,
request construction, sending, or reading the response body), except that
`ReadDB` can additionally return a JSON decode error; for all other
operations a decode failure never produces an error return. -/
theorem C3_error_provenance (m : MenousDB) (t : Transport) (table : String)
    (attributes columns : List String) (values : Json)
    (conditions vals : List (String × Json)) :
    (∀ e, (ReadDB m t).result = .error e →
      e = .noDatabaseSpecified ∨ e = .marshalError ∨
      e = .newRequestError ∨ e = .sendError ∨ e = .readError ∨
      e = .decodeError) ∧
    (∀ e, (CreateDB m t).result = .error e →
      e = .noDatabaseSpecified ∨ e = .marshalError ∨
      e = .newRequestError ∨ e = .sendError ∨ e = .readError) ∧
    (∀ e, (DeleteDB m t).result = .error e →
      e = .noDatabaseSpecified ∨ e = .marshalError ∨
      e = .newRequestError ∨ e = .sendError ∨ e = .readError) ∧
    (∀ e, (CheckDBExists m t).result = .error e →
      e = .noDatabaseSpecified ∨ e = .marshalError ∨
      e = .newRequestError ∨ e = .sendError ∨ e = .readError) ∧
    (∀ e, (CreateTable m table attributes t).result = .error e →
      e = .noDatabaseSpecified ∨ e = .marshalError ∨
      e = .newRequestError ∨ e = .sendError ∨ e = .readError) ∧
    (∀ e, (CheckTableExists m table t).result = .error e →
      e = .noDatabaseSpecified ∨ e = .marshalError ∨
      e = .newRequestError ∨ e = .sendError ∨ e = .readError) ∧
    (∀ e, (InsertIntoTable m table values t).result = .error e →
      e = .noDatabaseSpecified ∨ e = .marshalError ∨
      e = .newRequestError ∨ e = .sendError ∨ e = .readError) ∧
    (∀ e, (GetTable m table t).result = .error e →
      e = .noDatabaseSpecified ∨ e = .marshalError ∨
      e = .newRequestError ∨ e = .sendError ∨ e = .readError) ∧
    (∀ e, (SelectWhere m table conditions t).result = .error e →
      e = .noDatabaseSpecified ∨ e = .marshalError ∨
      e = .newRequestError ∨ e = .sendError ∨ e = .readError) ∧
    (∀ e, (SelectColumns m table columns t).result = .error e →
      e = .noDatabaseSpecified ∨ e = .marshalError ∨
      e = .newRequestError ∨ e = .sendError ∨ e = .readError) ∧
    (∀ e, (SelectColumnsWhere m table columns conditions t).result =
        .error e →
      e = .noDatabaseSpecified ∨ e = .marshalError ∨
      e = .newRequestError ∨ e = .sendError ∨ e = .readError) ∧
    (∀ e, (DeleteWhere m table conditions t).result = .error e →
      e = .noDatabaseSpecified ∨ e = .marshalError ∨
      e = .newRequestError ∨ e = .sendError ∨ e = .readError) ∧
    (∀ e, (DeleteTable m table t).result = .error e →
      e = .noDatabaseSpecified ∨ e = .marshalError ∨
      e = .newRequestError ∨ e = .sendError ∨ e = .readError) ∧
    (∀ e, (UpdateWhere m table conditions vals t).result = .error e →
      e = .noDatabaseSpecified ∨ e = .marshalError ∨
      e = .newRequestError ∨ e = .sendError ∨ e = .readError) ∧
    (∀ e, (GetDatabases m t).result = .error e →
      e = .noDatabaseSpecified ∨ e = .marshalError ∨
      e = .newRequestError ∨ e = .sendError ∨ e = .readError) := by
  refine ⟨?_, ?_, ?_, ?_, ?_, ?_, ?_, ?_, ?_, ?_, ?_, ?_, ?_, ?_, ?_⟩ <;>
    intro e he <;>
    first
      | exact runOp_error_cases_no_decode _ _ _ _ _ _ _ _ e
          (by decide) he
      | (have h₁ := runOp_error_cases _ _ _ _ _ _ _ _ e he
         tauto)

/-- Witness for C3 at a concrete input: with an empty database name,
`CreateDB` returns an error, and the theorem places it among the allowed
sources. -/
theorem C3_error_provenance_witness :
    (CreateDB mEmpty tOk).result =
      Except.error GoError.noDatabaseSpecified ∧
    (GoError.noDatabaseSpecified = GoError.noDatabaseSpecified ∨
     GoError.noDatabaseSpecified = GoError.marshalError ∨
     GoError.noDatabaseSpecified = GoError.newRequestError ∨
     GoError.noDatabaseSpecified = GoError.sendError ∨
     GoError.noDatabaseSpecified = GoError.readError) := by
  have h := (C3_error_provenance mEmpty tOk "people" ["a"] [] Json.null
    [] []).2.1 GoError.noDatabaseSpecified rfl
  exact ⟨rfl, h⟩

/-- Witness for C4 at a concrete input: the request performed by `ReadDB`
goes to the base URL with `read-db` appended. -/
theorem C4_fixed_endpoints_witness :
    ((ReadDB mW tOk).sent.all
      (fun r => r.url == mW.URL ++ "read-db")) = true :=
  (C4_fixed_endpoints mW tOk "people" ["a"] [] Json.null [] []).1

/-- Witness for C8 at a concrete input: constructing a client from a URL
without a trailing slash stores the key unchanged and a URL that ends
with a slash. -/
theorem C8_new_client_normalizes_witness :
    (NewMenousDB "http://host" "k" "db").Key = "k" ∧
    hasSuffix (NewMenousDB "http://host" "k" "db").URL "/" = true :=
  ⟨(C8_new_client_normalizes "http://host" "k" "db").1,
   (C8_new_client_normalizes "http://host" "k" "db").2.2.2.1⟩

/-- Witness for C9 at a concrete input: `ReadDB` leaves the concrete
client unchanged. -/
theorem C9_no_mutation_witness : (ReadDB mW tOk).receiver = mW :=
  (C9_no_mutation mW tOk "people" ["a"] [] Json.null [] []).1

/-- Witness for C10 at concrete inputs: `String()` returns the database
name, and on the empty-database client the validation step fails. -/
theorem C10_string_is_database_witness :
    (stringMethod mW).2 = "db" ∧
    validateDatabase mEmpty = .error .noDatabaseSpecified :=
  ⟨(C10_string_is_database mW).1,
   (C10_string_is_database mEmpty).2.mp rfl⟩
